import Mathlib

/-!
Verification of the healthcare-audio compliance pipeline.

Shallow embedding of the Python sources:
  security_middleware.py  (sliding-window rate limiter and blocklist)
  dlp_manager.py          (PHI scan aggregation, risk, classification, confidence)
  audit_logger.py         (audit events and severities)
  fhir_converter.py       (Media / DocumentReference / Bundle assembly, validator)
  storage_handler.py      (persistence call sequence)
  app.py                  (register-upload-fhir orchestrator, get-medical-records read path)

External collaborators (Google DLP, KMS, BigQuery, Cloud Storage) are modelled as
function parameters; uuid4 and wall-clock values are passed in as explicit arguments.
-/

/-! ## security_middleware.py -/

/-- Per-client rate-limit state: the deque of request timestamps for one IP and
whether that IP is in the blocked set. Timestamps are integers (e.g. minutes). -/
structure RLState where
  window : List Int
  blocked : Bool
deriving DecidableEq, Repr

/-- Initial state for a fresh client: empty deque, not blocked. -/
def initialRLState : RLState := ⟨[], false⟩

/-- The lazy pruning loop of check_rate_limit: pop entries from the front of the
deque while they are older than the window start. -/
def prune (window_start : Int) : List Int → List Int
  | [] => []
  | t :: ts => if t < window_start then prune window_start ts else t :: ts

/-- check_rate_limit from security_middleware.py (lines 100-125): prune, compare
the count to the limit; on denial add the client to the blocked set when the
count strictly exceeds limit * 2; on admission append the current timestamp.
Returns (allowed?, new state). -/
def check_rate_limit (limit : Nat) (window_minutes : Int) (now : Int) (s : RLState) :
    Bool × RLState :=
  let w := prune (now - window_minutes) s.window
  if limit ≤ w.length then
    (false, ⟨w, if limit * 2 < w.length then true else s.blocked⟩)
  else
    (true, ⟨w ++ [now], s.blocked⟩)

/-- is_ip_blocked from security_middleware.py (lines 127-129). -/
def is_ip_blocked (s : RLState) : Bool := s.blocked

/-- Run a sequence of requests (their timestamps) through check_rate_limit. -/
def runRequests (limit : Nat) (window_minutes : Int) : List Int → RLState → RLState
  | [], s => s
  | t :: ts, s => runRequests limit window_minutes ts (check_rate_limit limit window_minutes t s).2

/-! ## dlp_manager.py -/

/-- One DLP finding as assembled by scan_text_for_phi: the fields the manager
actually consumes downstream (info_type for risk, likelihood for confidence). -/
structure Finding where
  info_type : String
  likelihood : String
  quote : String
deriving DecidableEq, Repr

/-- The high-risk info types of _calculate_risk_level. -/
def high_risk_types : List String :=
  ["US_SOCIAL_SECURITY_NUMBER", "MEDICAL_RECORD_NUMBER", "DATE_OF_BIRTH"]

/-- _calculate_risk_level from dlp_manager.py (lines 226-240). -/
def calculate_risk_level (findings : List Finding) : String :=
  if findings = [] then "LOW"
  else
    let high_risk_count := findings.countP (fun f => high_risk_types.contains f.info_type)
    if 0 < high_risk_count then "HIGH"
    else if 3 < findings.length then "MEDIUM"
    else "LOW"

/-- Aggregated result of scan_text_for_phi (dlp_manager.py lines 119-124), given
the findings returned by the external DLP inspect_content call. -/
structure ScanResult where
  has_phi : Bool
  findings_count : Nat
  findings : List Finding
  risk_level : String
deriving DecidableEq, Repr

/-- scan_text_for_phi from dlp_manager.py: aggregation of the DLP findings into
the returned dictionary. The DLP API call itself is external; its finding list
is the argument. -/
def scan_text_for_phi (findings : List Finding) : ScanResult :=
  ⟨decide (0 < findings.length), findings.length, findings, calculate_risk_level findings⟩

/-- _calculate_confidence from dlp_manager.py (lines 266-281), with Python
floats modelled as rationals. -/
def calculate_confidence (scan_result : ScanResult) : ℚ :=
  if scan_result.has_phi = false then (95 : ℚ) / 100
  else
    let high_likelihood_count :=
      scan_result.findings.countP
        (fun f => f.likelihood == "VERY_LIKELY" || f.likelihood == "LIKELY")
    let total_findings := scan_result.findings_count
    if total_findings = 0 then (95 : ℚ) / 100
    else min (((high_likelihood_count : ℚ) / (total_findings : ℚ)) * (9 / 10) + 1 / 10)
             ((99 : ℚ) / 100)

/-- The classification and confidence parts of create_data_classification
(dlp_manager.py lines 203-224). -/
structure DataClassification where
  classification : String
  confidence : ℚ
deriving DecidableEq, Repr

/-- create_data_classification from dlp_manager.py, given the findings of the
scan it performs on its content argument. -/
def create_data_classification (findings : List Finding) : DataClassification :=
  let scan_result := scan_text_for_phi findings
  let classification :=
    if scan_result.has_phi then
      if 5 < scan_result.findings_count then "HIGHLY_SENSITIVE"
      else if 2 < scan_result.findings_count then "SENSITIVE"
      else "POTENTIALLY_SENSITIVE"
    else "PUBLIC"
  ⟨classification, calculate_confidence scan_result⟩

/-- The risk rule exactly as the specification words it, for comparison with the
code: HIGH on any high-risk finding, else MEDIUM when count exceeds 3, else LOW
when count is positive, and undefined (none) when there are no findings. -/
def riskLevelClaim (findings : List Finding) : Option String :=
  if findings = [] then none
  else if 0 < findings.countP (fun f => high_risk_types.contains f.info_type) then some "HIGH"
  else if 3 < findings.length then some "MEDIUM"
  else some "LOW"

/-! ## audit_logger.py -/

/-- Python truthiness of an optional string: present and non-empty. -/
def pyTruthyStr : Option String → Bool
  | none => false
  | some s => decide (s ≠ "")

/-- Python truthiness of an optional number: present and non-zero. -/
def pyTruthyNum : Option ℚ → Bool
  | none => false
  | some d => decide (d ≠ 0)

/-- The audit event dictionary built by log_data_access (audit_logger.py
lines 18-65); request-scoped fields (ip, user agent, session) are omitted. -/
structure AuditEvent where
  event_type : String
  user_id : String
  resource_type : String
  resource_id : String
  action : String
  success : Bool
  patient_id : Option String
  error_message : Option String
  compliance_category : String
deriving DecidableEq, Repr

/-- log_data_access from audit_logger.py: the structured event together with
the severity it is emitted at. -/
def log_data_access (event_type user_id resource_type resource_id action : String)
    (patient_id : Option String) (success : Bool) (error_message : Option String) :
    AuditEvent × String :=
  (⟨event_type, user_id, resource_type, resource_id, action, success, patient_id,
      error_message,
      if pyTruthyStr patient_id then "HIPAA_PHI_ACCESS" else "SYSTEM_ACCESS"⟩,
   if success = false then "ERROR" else "INFO")

/-- log_fhir_access from audit_logger.py (lines 126-145): delegates to
log_data_access with event type FHIR_ACCESS and success defaulted to true. -/
def log_fhir_access (user_id fhir_resource_type fhir_resource_id operation : String)
    (patient_id : Option String) : AuditEvent × String :=
  log_data_access "FHIR_ACCESS" user_id fhir_resource_type fhir_resource_id operation
    patient_id true none

/-- Severity chosen by log_admin_action (audit_logger.py lines 86-94): the call
to log_struct passes the constant NOTICE, with no branch on the success flag. -/
def log_admin_action_severity (_success : Bool) : String := "NOTICE"

/-- Severity chosen by log_authentication_event (audit_logger.py lines 114-124). -/
def log_authentication_severity (success : Bool) : String :=
  if success = false then "WARNING" else "INFO"

/-- Google Cloud Logging numeric severity levels, used to compare severities
(DEBUG 100 < INFO 200 < NOTICE 300 < WARNING 400 < ERROR 500 < ...). -/
def severityRank (s : String) : Nat :=
  if s = "DEBUG" then 100
  else if s = "INFO" then 200
  else if s = "NOTICE" then 300
  else if s = "WARNING" then 400
  else if s = "ERROR" then 500
  else if s = "CRITICAL" then 600
  else if s = "ALERT" then 700
  else if s = "EMERGENCY" then 800
  else 0

/-! ## fhir_converter.py -/

/-- The meta block of a FHIR resource (versionId, lastUpdated). -/
structure FhirMeta where
  versionId : String
  lastUpdated : String
deriving DecidableEq, Repr

/-- A subject reference as built by the converter. -/
structure SubjectRef where
  reference : String
  display : String
deriving DecidableEq, Repr

/-- The content descriptor shared by Media and DocumentReference attachments. -/
structure MediaContent where
  contentType : String
  size : Nat
  url : String
  title : String
deriving DecidableEq, Repr

/-- A FHIR resource dictionary as assembled by fhir_converter.py. Every field is
optional, mirroring dictionary-key presence; the validator checks presence. -/
structure Resource where
  resourceType : Option String := none
  id : Option String := none
  meta : Option FhirMeta := none
  identifierValue : Option String := none
  status : Option String := none
  createdDateTime : Option String := none
  issued : Option String := none
  date : Option String := none
  content : Option MediaContent := none
  contentAttachment : Option MediaContent := none
  duration : Option ℚ := none
  subject : Option SubjectRef := none
  operatorDisplay : Option String := none
  deviceName : Option String := none
  reasonCodeText : Option String := none
deriving DecidableEq, Repr

/-- The base url constant of the converter. -/
def base_url : String := "https://data-api-887192895309.us-central1.run.app"

/-- create_media_resource from fhir_converter.py (lines 12-122). The uuid and
timestamp are passed in (uuid4 and datetime.now are external). Optional fields
are attached only when the corresponding argument is Python-truthy. -/
def create_media_resource (resource_id now file_name file_path : String)
    (file_size_bytes : Nat) (content_type : String) (duration_seconds : Option ℚ)
    (subject_reference operator_name device_name reason_code : Option String) : Resource :=
  { resourceType := some "Media"
    id := some resource_id
    meta := some ⟨"1", now⟩
    identifierValue := some file_name
    status := some "completed"
    createdDateTime := some now
    issued := some now
    content := some ⟨content_type, file_size_bytes, file_path, file_name⟩
    duration := if pyTruthyNum duration_seconds then duration_seconds else none
    subject :=
      if pyTruthyStr subject_reference then subject_reference.map (fun r => ⟨r, "Patient"⟩)
      else none
    operatorDisplay := if pyTruthyStr operator_name then operator_name else none
    deviceName := if pyTruthyStr device_name then device_name else none
    reasonCodeText := if pyTruthyStr reason_code then reason_code else none }

/-- create_document_reference from fhir_converter.py (lines 124-210): its
attachment mirrors the Media content descriptor. -/
def create_document_reference (resource_id now : String) (media_resource : Resource)
    (file_name file_path : String) (subject_reference : Option String) : Resource :=
  { resourceType := some "DocumentReference"
    id := some resource_id
    meta := some ⟨"1", now⟩
    identifierValue := some ("doc-" ++ file_name)
    status := some "current"
    date := some now
    contentAttachment :=
      media_resource.content.map (fun c => ⟨c.contentType, c.size, file_path, file_name⟩)
    subject :=
      if pyTruthyStr subject_reference then subject_reference.map (fun r => ⟨r, "Patient"⟩)
      else none }

/-- validate_fhir_resource from fhir_converter.py (lines 212-232): the required
fields resourceType, id, meta must be present and the resourceType must be
Media or DocumentReference. -/
def validate_fhir_resource (resource : Resource) : Bool :=
  match resource.resourceType, resource.id, resource.meta with
  | some rt, some _, some _ => rt == "Media" || rt == "DocumentReference"
  | _, _, _ => false

/-- One entry of a FHIR Bundle. -/
structure BundleEntry where
  resource : Resource
  fullUrl : String
deriving DecidableEq, Repr

/-- The FHIR Bundle dictionary assembled by convert_audio_metadata_to_fhir. -/
structure Bundle where
  resourceType : String
  id : String
  lastUpdated : String
  bundleType : String
  entry : List BundleEntry
deriving DecidableEq, Repr

/-- convert_audio_metadata_to_fhir from fhir_converter.py (lines 234-292): build
the Media resource, the DocumentReference, and wrap them (in that order) in a
Bundle. The three uuids and the timestamp are passed in. -/
def convert_audio_metadata_to_fhir (media_id doc_id bundle_id now : String)
    (file_name file_path : String) (file_size_bytes : Nat) (content_type : String)
    (patient_id operator_name : Option String) (duration_seconds : Option ℚ)
    (reason : Option String) : Bundle :=
  let subject_reference :=
    if pyTruthyStr patient_id then patient_id.map (fun p => "Patient/" ++ p) else none
  let media_resource :=
    create_media_resource media_id now file_name file_path file_size_bytes content_type
      duration_seconds subject_reference operator_name (some "Mobile Audio Recorder") reason
  let doc_reference :=
    create_document_reference doc_id now media_resource file_name file_path subject_reference
  ⟨"Bundle", bundle_id, now, "collection",
    [⟨media_resource, base_url ++ "/Media/" ++ media_id⟩,
     ⟨doc_reference, base_url ++ "/DocumentReference/" ++ doc_id⟩]⟩

/-! ## storage_handler.py -/

/-- A document handed to store_fhir_resource: either the whole Bundle or one of
its constituent resources. -/
inductive FhirDoc where
  | bundle (b : Bundle)
  | res (r : Resource)
deriving DecidableEq, Repr

/-- One call to the BigQuery persistence collaborator, with the arguments that
reach it. store_audio_file_metadata inserts only file_name, file_path and
file_size_bytes (plus a timestamp); store_fhir_resource inserts the document
together with the patient_id and file_name columns. -/
inductive StoreCall where
  | metadata (file_name file_path : String) (file_size_bytes : Nat)
  | fhir (doc : FhirDoc) (patient_id : Option String) (file_name : Option String)
deriving DecidableEq, Repr

/-- The patient-identifying and operator-identifying string slots of a resource:
the subject reference and the operator display. -/
def Resource.patientSlots (r : Resource) : List String :=
  (r.subject.map SubjectRef.reference).toList ++ r.operatorDisplay.toList

/-- The patient/operator slots of a stored document. -/
def FhirDoc.patientSlots : FhirDoc → List String
  | .bundle b => (b.entry.map (fun e => e.resource.patientSlots)).flatten
  | .res r => r.patientSlots

/-- All patient/operator values handed to the persistence collaborator by one
store call: the patient_id column plus the slots inside the stored document. -/
def StoreCall.patientSlots : StoreCall → List String
  | .metadata _ _ _ => []
  | .fhir doc patient_id _ => patient_id.toList ++ doc.patientSlots

/-- The persistence calls issued by store_audio_file_with_fhir
(storage_handler.py lines 133-179), in order: the flat metadata row, the whole
Bundle, then each entry resource of the Bundle. -/
def store_calls_of (fhir_bundle : Bundle) (file_name file_data : String)
    (file_size : Nat) (patient_id : Option String) : List StoreCall :=
  StoreCall.metadata file_name file_data file_size ::
  StoreCall.fhir (.bundle fhir_bundle) patient_id (some file_name) ::
  fhir_bundle.entry.map (fun e => StoreCall.fhir (.res e.resource) patient_id (some file_name))

/-- store_audio_file_with_fhir from storage_handler.py: assemble the Bundle and
produce the sequence of persistence calls together with the Bundle it returns. -/
def store_audio_file_with_fhir (media_id doc_id bundle_id now : String)
    (file_name file_data : String) (file_size : Nat) (file_type : String)
    (patient_id operator_name : Option String) (duration_seconds : Option ℚ)
    (reason : Option String) : List StoreCall × Bundle :=
  let fhir_bundle :=
    convert_audio_metadata_to_fhir media_id doc_id bundle_id now file_name file_data
      file_size file_type patient_id operator_name duration_seconds reason
  (store_calls_of fhir_bundle file_name file_data file_size patient_id, fhir_bundle)

/-- Issue the persistence calls against the BigQuery collaborator in order,
stopping at the first failure (insert_rows_json errors raise). Returns the
attempted calls and the error, if any. -/
def runCalls (bq : StoreCall → Except String Unit) : List StoreCall → List StoreCall × Option String
  | [] => ([], none)
  | c :: cs =>
    match bq c with
    | .error e => ([c], some e)
    | .ok _ =>
      let rest := runCalls bq cs
      (c :: rest.1, rest.2)

/-! ## app.py: register-upload-fhir orchestrator -/

/-- The JSON payload of a register-upload-fhir request; absent keys are none. -/
structure Payload where
  file_name : Option String
  file_size : Option Nat
  file_type : Option String
  patient_id : Option String
  operator_name : Option String
  duration_seconds : Option ℚ
  reason : Option String
deriving DecidableEq, Repr

/-- The HTTP-level outcome of the handler. -/
inductive ApiResponse where
  | badRequest (error : String)
  | serverError (error : String)
  | ok (fhir_bundle_id : String) (resources_created : Nat) (phi_detected : Bool)
      (risk_level : String)
deriving DecidableEq, Repr

/-- Everything observable about one handler execution: the audit events written
(in order), the persistence calls attempted (in order), and the response. -/
structure RegisterResult where
  audits : List AuditEvent
  stores : List StoreCall
  response : ApiResponse
deriving DecidableEq, Repr

/-- The encryption step of register_upload_fhir for one optional field: encrypt
it only when it is Python-truthy, otherwise pass it through unchanged. -/
def encryptField (encrypt : String → Except String String) :
    Option String → Except String (Option String)
  | none => Except.ok none
  | some s => if s = "" then Except.ok (some s) else (encrypt s).map some

/-- The audit event of the missing-required-field path (app.py lines 520-529). -/
def missingFieldAudit (data : Payload) (field : String) : AuditEvent :=
  (log_data_access "DATA_ACCESS" (data.operator_name.getD "unknown") "FHIR_REGISTRATION"
    (data.file_name.getD "unknown") "CREATE" data.patient_id false
    (some ("Missing required field: " ++ field))).1

/-- The audit event of the exception handler (app.py lines 601-612): event type
ERROR, success false, the exception text as the error message. -/
def errorAudit (data : Payload) (e : String) : AuditEvent :=
  (log_data_access "ERROR" (data.operator_name.getD "unknown") "FHIR_REGISTRATION"
    (data.file_name.getD "unknown") "CREATE" data.patient_id false (some e)).1

/-- The PHI-detection audit event (app.py lines 540-552). -/
def phiAudit (data : Payload) (file_name : String) : AuditEvent :=
  (log_data_access "PHI_DETECTION" (data.operator_name.getD "unknown") "REQUEST_DATA"
    file_name "SCAN" data.patient_id true none).1

/-- The failure result of the exception handler: the audit events written so
far plus the error audit, and a 500 response carrying the exception text. -/
def failServer (data : Payload) (audits : List AuditEvent) (stores : List StoreCall)
    (e : String) : RegisterResult :=
  ⟨audits ++ [errorAudit data e], stores, .serverError e⟩

/-- register_upload_fhir from app.py (lines 510-617). External collaborators are
parameters: the DLP scan of the request json (its findings, or the exception it
raises), the KMS encrypt primitive, the signed-url generator, and the BigQuery
insert. The uuids and timestamp consumed by the converter are passed in. -/
def register_upload_fhir (scan : Except String (List Finding))
    (encrypt : String → Except String String) (signed_url : Except String String)
    (bq : StoreCall → Except String Unit) (media_id doc_id bundle_id now : String)
    (data : Payload) : RegisterResult :=
  match data.file_name, data.file_size, data.file_type with
  | none, _, _ => ⟨[missingFieldAudit data "file_name"], [],
      .badRequest "Missing required field: file_name"⟩
  | some _, none, _ => ⟨[missingFieldAudit data "file_size"], [],
      .badRequest "Missing required field: file_size"⟩
  | some _, some _, none => ⟨[missingFieldAudit data "file_type"], [],
      .badRequest "Missing required field: file_type"⟩
  | some file_name, some file_size, some file_type =>
    match scan with
    | .error e => failServer data [] [] e
    | .ok findings =>
      let phi_scan := scan_text_for_phi findings
      let phi_audits := if phi_scan.has_phi then [phiAudit data file_name] else []
      match encryptField encrypt data.patient_id with
      | .error e => failServer data phi_audits [] e
      | .ok enc_patient =>
        match encryptField encrypt data.operator_name with
        | .error e => failServer data phi_audits [] e
        | .ok enc_operator =>
          match signed_url with
          | .error e => failServer data phi_audits [] e
          | .ok read_url =>
            let sb := store_audio_file_with_fhir media_id doc_id bundle_id now file_name
              read_url file_size file_type enc_patient enc_operator data.duration_seconds
              data.reason
            let run := runCalls bq sb.1
            match run.2 with
            | some e => failServer data phi_audits run.1 e
            | none =>
              ⟨phi_audits ++ [(log_fhir_access (data.operator_name.getD "system") "Bundle"
                  sb.2.id "CREATE" data.patient_id).1],
               run.1,
               .ok sb.2.id sb.2.entry.length phi_scan.has_phi phi_scan.risk_level⟩

/-! ## app.py: get-medical-records read path -/

/-- One name element of a FHIR Practitioner resource column. -/
structure NameLite where
  given : List String
  family : String
deriving DecidableEq, Repr

/-- A FHIR entry of a stored bundle, reduced to the fields the read path
inspects. -/
inductive LiteResource where
  | practitioner (names : List NameLite)
  | diagnosticReport (code_text : Option String) (conclusion : Option String)
  | mediaRes (reason_texts : List (Option String))
  | otherRes
deriving DecidableEq, Repr

/-- One BigQuery row of the fhir_resources table as the read path sees it. The
fhir_resource column is the stored json: absent (none), or present and either
parsed entries or a parse failure. -/
structure BQRow where
  file_name : Option String
  patient_id : Option String
  resource_id : Option String
  created_at : Option String
  fhir_resource : Option (Except Unit (List LiteResource))

/-- One record of the get-medical-records response. -/
structure MedRecord where
  id : Option String
  file_name : Option String
  patient_id : String
  doctor : String
  reason : String
  date : Option String
  is_encrypted : Bool
deriving DecidableEq, Repr

/-- The practitioner-name assembly of the read path (app.py lines 669-675):
take the first name element; when its given or family part is truthy, join and
strip them. -/
def full_name_of (names : List NameLite) : Option String :=
  match names with
  | [] => none
  | n :: _ =>
    if n.given ≠ [] ∨ n.family ≠ "" then
      some ((String.intercalate " " n.given ++ " " ++ n.family).trim)
    else none

/-- One step of the entry loop of get_medical_records (app.py lines 664-697),
updating the (doctor, reason) accumulator. -/
def entryStep (decrypt : String → Except Unit String) (acc : String × String)
    (r : LiteResource) : String × String :=
  match r with
  | .practitioner names =>
    match full_name_of names with
    | some full_name =>
      (if 50 < full_name.length then
        match decrypt full_name with
        | .ok d => d
        | .error _ => "Decryption Failed"
       else full_name, acc.2)
    | none => acc
  | .diagnosticReport code_text conclusion =>
    match code_text with
    | some t => (acc.1, t)
    | none =>
      match conclusion with
      | some c => (acc.1, c)
      | none => acc
  | .mediaRes reason_texts =>
    match reason_texts with
    | some t :: _ => (acc.1, t)
    | _ => acc
  | .otherRes => acc

/-- Per-row processing of get_medical_records (app.py lines 642-712): decrypt
the patient field when it exceeds the 50-character ciphertext heuristic,
degrading to the sentinel on decryption failure; extract doctor and reason from
the stored bundle. The second component records the input the patient-field
decrypt was invoked on, if it was invoked at all. -/
def processRow (decrypt : String → Except Unit String) (row : BQRow) :
    MedRecord × Option String :=
  let patient_call :=
    match row.patient_id with
    | some p => if 50 < p.length then some p else none
    | none => none
  let decrypted_patient :=
    match row.patient_id with
    | some p =>
      if 50 < p.length then
        match decrypt p with
        | .ok d => d
        | .error _ => "Decryption Failed"
      else if p = "" then "Unknown Patient" else p
    | none => "Unknown Patient"
  let dr :=
    match row.fhir_resource with
    | some (.ok entries) => entries.foldl (entryStep decrypt) ("Unknown Doctor", "Not specified")
    | _ => ("Unknown Doctor", "Not specified")
  (⟨row.resource_id, row.file_name, decrypted_patient, dr.1, dr.2, row.created_at,
     decide (50 < (row.patient_id.getD "").length)⟩,
   patient_call)

/-- get_medical_records from app.py: the bulk listing maps the per-row
processing over the query rows; a failing record degrades per-record and never
aborts the listing. -/
def get_medical_records (decrypt : String → Except Unit String) (rows : List BQRow) :
    List MedRecord :=
  rows.map (fun r => (processRow decrypt r).1)

/-- A sample base64 KMS envelope (64 characters), used to evaluate theorems at
concrete inputs. -/
def sampleCipher : String :=
  "CiQAx0123456789abcdefghijklmnopqrstuvwxyzABCDEFGHIJKLMNOPQRSTUV"

/-! ## Helper lemmas -/

theorem prune_length_le (window_start : Int) (l : List Int) :
    (prune window_start l).length ≤ l.length := by
  induction l with
  | nil => simp [prune]
  | cons t ts ih =>
    simp only [prune]
    split
    · exact le_trans ih (Nat.le_succ _)
    · exact le_refl _

theorem check_rate_limit_window_le (limit : Nat) (wm now : Int) (s : RLState)
    (h : s.window.length ≤ limit) :
    ((check_rate_limit limit wm now s).2).window.length ≤ limit := by
  simp only [check_rate_limit]
  split
  · exact le_trans (prune_length_le _ _) h
  · rename_i hlt
    simp only [List.length_append, List.length_singleton]
    omega

theorem check_rate_limit_blocked_eq (limit : Nat) (wm now : Int) (s : RLState)
    (h : s.window.length ≤ limit) :
    ((check_rate_limit limit wm now s).2).blocked = s.blocked := by
  simp only [check_rate_limit]
  split
  · have hp : (prune (now - wm) s.window).length ≤ limit :=
      le_trans (prune_length_le _ _) h
    have : ¬ limit * 2 < (prune (now - wm) s.window).length := by omega
    simp [this]
  · rfl

theorem runRequests_invariant (limit : Nat) (wm : Int) :
    ∀ (ts : List Int) (s : RLState), s.window.length ≤ limit →
      (runRequests limit wm ts s).window.length ≤ limit ∧
      (runRequests limit wm ts s).blocked = s.blocked := by
  intro ts
  induction ts with
  | nil => intro s h; exact ⟨h, rfl⟩
  | cons t ts ih =>
    intro s h
    have h1 := check_rate_limit_window_le limit wm t s h
    have h2 := check_rate_limit_blocked_eq limit wm t s h
    have := ih (check_rate_limit limit wm t s).2 h1
    exact ⟨this.1, this.2.trans h2⟩

theorem runCalls_mem (bq : StoreCall → Except String Unit) :
    ∀ (l : List StoreCall) (c : StoreCall), c ∈ (runCalls bq l).1 → c ∈ l := by
  intro l
  induction l with
  | nil => intro c hc; simp [runCalls] at hc
  | cons x xs ih =>
    intro c hc
    simp only [runCalls] at hc
    cases hbq : bq x with
    | error e =>
      rw [hbq] at hc
      simp only [List.mem_singleton] at hc
      exact hc ▸ List.mem_cons_self x xs
    | ok u =>
      rw [hbq] at hc
      simp only [List.mem_cons] at hc
      rcases hc with h | h
      · exact h ▸ List.mem_cons_self x xs
      · exact List.mem_cons_of_mem _ (ih c h)

theorem runCalls_complete (bq : StoreCall → Except String Unit) :
    ∀ l : List StoreCall, (runCalls bq l).2 = none → (runCalls bq l).1 = l := by
  intro l
  induction l with
  | nil => intro _; rfl
  | cons x xs ih =>
    intro h
    simp only [runCalls] at h ⊢
    cases hbq : bq x with
    | error e =>
      rw [hbq] at h
      exact absurd h (Option.some_ne_none e)
    | ok u =>
      rw [hbq] at h
      have h2 : (runCalls bq xs).2 = none := h
      show x :: (runCalls bq xs).1 = x :: xs
      rw [ih h2]

theorem getLast_append_singleton {α : Type} (l : List α) (a : α) :
    (l ++ [a]).getLast? = some a := by
  rw [List.getLast?_append_cons]
  rfl

theorem ne_empty_of_fifty_lt (s : String) (h : 50 < s.length) : s ≠ "" := by
  intro he
  subst he
  exact absurd h (by decide)

theorem ne_of_len_gt {v pid : String} (hv : 50 < v.length) (hp : pid.length ≤ 50) :
    v ≠ pid := by
  intro he
  subst he
  omega

theorem encryptField_ok_len (encrypt : String → Except String String)
    (hlen : ∀ s t, encrypt s = .ok t → 50 < t.length) :
    ∀ (v : Option String) (o : Option String), encryptField encrypt v = .ok o →
      ∀ x ∈ o, x ≠ "" → 50 < x.length := by
  intro v o h x hx hne
  cases v with
  | none =>
    simp only [encryptField] at h
    cases h
    simp at hx
  | some s =>
    simp only [encryptField] at h
    split at h
    · cases h
      simp only [Option.mem_def, Option.some.injEq] at hx
      subst hx
      rename_i hs
      exact absurd hs hne
    · cases henc : encrypt s with
      | error e => rw [henc] at h; simp [Except.map] at h
      | ok t =>
        rw [henc] at h
        simp only [Except.map, Except.ok.injEq] at h
        subst h
        simp only [Option.mem_def, Option.some.injEq] at hx
        subst hx
        exact hlen s t henc

/-! ## Claim theorems -/

/-- C9: every call to check_rate_limit preserves the invariant that the stored
window holds at most limit timestamps: a timestamp is appended only when the
pruned count is strictly below the limit, and a denied request only prunes the
window, so the per-window stored request count never exceeds the limit. -/
theorem rate_window_invariant (limit : Nat) (wm now : Int) (s : RLState)
    (h : s.window.length ≤ limit) :
    ((check_rate_limit limit wm now s).2).window.length ≤ limit ∧
    ((check_rate_limit limit wm now s).1 = true →
      (check_rate_limit limit wm now s).2.window = prune (now - wm) s.window ++ [now] ∧
      (prune (now - wm) s.window).length < limit) ∧
    ((check_rate_limit limit wm now s).1 = false →
      (check_rate_limit limit wm now s).2.window = prune (now - wm) s.window) := by
  refine ⟨check_rate_limit_window_le limit wm now s h, ?_, ?_⟩
  · intro ha
    simp only [check_rate_limit] at ha ⊢
    by_cases hc : limit ≤ (prune (now - wm) s.window).length
    · rw [if_pos hc] at ha
      simp at ha
    · rw [if_neg hc]
      exact ⟨rfl, by omega⟩
  · intro hd
    simp only [check_rate_limit] at hd ⊢
    by_cases hc : limit ≤ (prune (now - wm) s.window).length
    · rw [if_pos hc]
    · rw [if_neg hc] at hd
      simp at hd

/-- Witness for C9 at a concrete state that is exactly at the limit. -/
theorem rate_window_invariant_witness :
    ((check_rate_limit 1 15 0 ⟨[0], false⟩).2).window.length ≤ 1 :=
  (rate_window_invariant 1 15 0 ⟨[0], false⟩ (by decide)).1

/-- C2 (code bug): the blocklist promotion of check_rate_limit is unreachable.
Issuing 201 requests inside one window with limit 100 never blocklists the
client, because denied requests are not appended to the window, so the stored
count saturates at the limit and the strict comparison against limit * 2 can
never hold; more generally, no request sequence from a fresh client ever makes
is_ip_blocked true. -/
theorem blocklist_promotion_unreachable :
    is_ip_blocked (runRequests 100 15 (List.replicate 201 0) initialRLState) = false ∧
    ∀ (limit : Nat) (wm : Int) (ts : List Int),
      is_ip_blocked (runRequests limit wm ts initialRLState) = false := by
  constructor
  · exact (runRequests_invariant 100 15 (List.replicate 201 0) initialRLState
      (by simp [initialRLState])).2
  · intro limit wm ts
    exact (runRequests_invariant limit wm ts initialRLState (by simp [initialRLState])).2

/-- C4 counterexample: for the empty finding list the scan result carries the
defined risk level LOW, while the claim says the risk is undefined there. -/
theorem risk_empty_counterexample :
    (scan_text_for_phi []).risk_level = "LOW" ∧ riskLevelClaim [] = none ∧
    some (scan_text_for_phi []).risk_level ≠ riskLevelClaim [] := by
  refine ⟨rfl, rfl, by decide⟩

/-- C4 (amended): the computed risk level is HIGH when any finding has a
high-risk info type, else MEDIUM when the finding count exceeds 3, else LOW —
including the no-findings case, where the risk level is LOW (not undefined)
and the result carries hasPHI = false. -/
theorem risk_level_rule (findings : List Finding) :
    (scan_text_for_phi findings).has_phi = decide (0 < findings.length) ∧
    (scan_text_for_phi findings).risk_level =
      (if 0 < findings.countP (fun f => high_risk_types.contains f.info_type) then "HIGH"
       else if 3 < findings.length then "MEDIUM"
       else "LOW") := by
  refine ⟨rfl, ?_⟩
  show calculate_risk_level findings = _
  unfold calculate_risk_level
  by_cases h : findings = []
  · subst h
    simp
  · simp [h]

/-- C5: the derived classification is HIGHLY_SENSITIVE when the finding count
exceeds 5, SENSITIVE when it exceeds 2, POTENTIALLY_SENSITIVE when positive,
else PUBLIC; and the confidence is 0.95 with no findings, otherwise
0.1 + 0.9 * (highLikelihoodFindings / totalFindings) capped at 0.99. -/
theorem classification_confidence_rule (findings : List Finding) :
    (create_data_classification findings).classification =
      (if 5 < findings.length then "HIGHLY_SENSITIVE"
       else if 2 < findings.length then "SENSITIVE"
       else if 0 < findings.length then "POTENTIALLY_SENSITIVE"
       else "PUBLIC") ∧
    (create_data_classification findings).confidence =
      (if findings.length = 0 then (95 : ℚ) / 100
       else
        min (1 / 10 + (9 / 10) *
            ((findings.countP
                (fun f => f.likelihood == "VERY_LIKELY" || f.likelihood == "LIKELY") : ℚ)
              / (findings.length : ℚ)))
          ((99 : ℚ) / 100)) := by
  constructor
  · simp only [create_data_classification, scan_text_for_phi]
    by_cases h0 : 0 < findings.length
    · simp [h0]
    · have hz : findings.length = 0 := by omega
      simp [hz]
  · simp only [create_data_classification, calculate_confidence, scan_text_for_phi]
    by_cases h0 : 0 < findings.length
    · have hz : ¬ findings.length = 0 := by omega
      simp [h0, hz]
      congr 1
      ring
    · have hz : findings.length = 0 := by omega
      simp [hz]

/-- C6 counterexample: a failed admin action is emitted at severity NOTICE,
which is strictly below WARNING, so the elevation rule does not hold for the
admin-action recording operation. -/
theorem admin_failure_severity_counterexample :
    log_admin_action_severity false = "NOTICE" ∧
    severityRank (log_admin_action_severity false) < severityRank "WARNING" := by
  exact ⟨rfl, by decide⟩

/-- C6 (amended): failed data-access events are emitted at ERROR (at least
WARNING) and failed authentication events at WARNING, but admin-action events
are always emitted at NOTICE — below WARNING — regardless of the success flag. -/
theorem failure_severity_rule :
    (∀ et uid rt rid a pid em,
      (log_data_access et uid rt rid a pid false em).2 = "ERROR" ∧
      severityRank "WARNING" ≤ severityRank (log_data_access et uid rt rid a pid false em).2) ∧
    log_authentication_severity false = "WARNING" ∧
    (∀ b, log_admin_action_severity b = "NOTICE") ∧
    severityRank "NOTICE" < severityRank "WARNING" := by
  refine ⟨fun et uid rt rid a pid em => ⟨rfl, ?_⟩, rfl, fun b => rfl, by decide⟩
  show severityRank "WARNING" ≤ severityRank "ERROR"
  decide

/-- C10: the Media resource carries a duration field iff duration_seconds is
Python-truthy; supplying duration 0 produces the same resource as supplying no
duration at all. -/
theorem media_duration_truthiness (resource_id now file_name file_path : String)
    (file_size_bytes : Nat) (content_type : String) (duration_seconds : Option ℚ)
    (subject_reference operator_name device_name reason_code : Option String) :
    ((create_media_resource resource_id now file_name file_path file_size_bytes content_type
        duration_seconds subject_reference operator_name device_name reason_code).duration =
      if pyTruthyNum duration_seconds then duration_seconds else none) ∧
    ((create_media_resource resource_id now file_name file_path file_size_bytes content_type
        duration_seconds subject_reference operator_name device_name reason_code).duration.isSome
      = pyTruthyNum duration_seconds) ∧
    (create_media_resource resource_id now file_name file_path file_size_bytes content_type
        (some 0) subject_reference operator_name device_name reason_code =
      create_media_resource resource_id now file_name file_path file_size_bytes content_type
        none subject_reference operator_name device_name reason_code) := by
  refine ⟨rfl, ?_, ?_⟩
  · show (if pyTruthyNum duration_seconds then duration_seconds else none).isSome = _
    cases duration_seconds with
    | none => rfl
    | some d =>
      by_cases hd : d = 0
      · subst hd
        simp [pyTruthyNum]
      · simp [pyTruthyNum, hd]
  · simp [create_media_resource, pyTruthyNum]

theorem string_length_append (a b : String) : (a ++ b).length = a.length + b.length := by
  rcases a with ⟨da⟩
  rcases b with ⟨db⟩
  show (String.mk (da ++ db)).length = (String.mk da).length + (String.mk db).length
  simp [String.length]

theorem patientRef_ne_empty (pid : String) : ("Patient/" ++ pid) ≠ "" := by
  intro h
  have hl := congrArg String.length h
  rw [string_length_append] at hl
  have h8 : ("Patient/" : String).length = 8 := rfl
  have h0 : ("" : String).length = 0 := rfl
  omega

/-- C7: assembling a bundle for a known patient id yields exactly two entries,
Media first and DocumentReference second, both with subject Patient/pid; the
Bundle carries the supplied fresh id (distinct from both resource ids) and the
last-updated timestamp; and the validator rejects any resource missing
resourceType, id or meta, or whose resourceType is neither Media nor
DocumentReference. -/
theorem bundle_assembly_shape (media_id doc_id bundle_id now file_name file_path : String)
    (file_size_bytes : Nat) (content_type : String) (pid : String)
    (operator_name : Option String) (duration_seconds : Option ℚ) (reason : Option String)
    (b : Bundle)
    (hb : b = convert_audio_metadata_to_fhir media_id doc_id bundle_id now file_name
      file_path file_size_bytes content_type (some pid) operator_name duration_seconds
      reason)
    (hpid : pid ≠ "") (hbm : bundle_id ≠ media_id) (hbd : bundle_id ≠ doc_id) :
    b.entry.length = 2 ∧
    b.entry.map (fun e => e.resource.resourceType) = [some "Media", some "DocumentReference"] ∧
    (∀ e ∈ b.entry, e.resource.subject = some ⟨"Patient/" ++ pid, "Patient"⟩) ∧
    b.id = bundle_id ∧ b.lastUpdated = now ∧
    b.entry.map (fun e => e.resource.id) = [some media_id, some doc_id] ∧
    (∀ e ∈ b.entry, e.resource.id ≠ some bundle_id) ∧
    (∀ e ∈ b.entry, validate_fhir_resource e.resource = true) ∧
    (∀ r : Resource,
      (r.resourceType = none ∨ r.id = none ∨ r.meta = none ∨
        (r.resourceType ≠ some "Media" ∧ r.resourceType ≠ some "DocumentReference")) →
      validate_fhir_resource r = false) := by
  subst hb
  have hsub : ("Patient/" ++ pid) ≠ "" := patientRef_ne_empty pid
  have hbres : (convert_audio_metadata_to_fhir media_id doc_id bundle_id now file_name
      file_path file_size_bytes content_type (some pid) operator_name duration_seconds
      reason).entry.map (fun e => e.resource) =
      [create_media_resource media_id now file_name file_path file_size_bytes content_type
        duration_seconds (some ("Patient/" ++ pid)) operator_name
        (some "Mobile Audio Recorder") reason,
       create_document_reference doc_id now
        (create_media_resource media_id now file_name file_path file_size_bytes content_type
          duration_seconds (some ("Patient/" ++ pid)) operator_name
          (some "Mobile Audio Recorder") reason) file_name file_path
        (some ("Patient/" ++ pid))] := by
    simp [convert_audio_metadata_to_fhir, pyTruthyStr, hpid]
  refine ⟨?_, ?_, ?_, rfl, rfl, ?_, ?_, ?_, ?_⟩
  · simp [convert_audio_metadata_to_fhir]
  · simp [convert_audio_metadata_to_fhir, create_media_resource, create_document_reference]
  · intro e he
    simp [convert_audio_metadata_to_fhir] at he
    rcases he with rfl | rfl
    · simp [create_media_resource, pyTruthyStr, hpid, hsub]
    · simp [create_document_reference, pyTruthyStr, hpid, hsub]
  · simp [convert_audio_metadata_to_fhir, create_media_resource, create_document_reference]
  · intro e he
    simp [convert_audio_metadata_to_fhir] at he
    rcases he with rfl | rfl
    · simp [create_media_resource]
      exact fun h => hbm h.symm
    · simp [create_document_reference]
      exact fun h => hbd h.symm
  · intro e he
    simp [convert_audio_metadata_to_fhir] at he
    rcases he with rfl | rfl
    · simp [create_media_resource, validate_fhir_resource]
    · simp [create_document_reference, validate_fhir_resource]
  · intro r hr
    cases hrt : r.resourceType with
    | none => simp [validate_fhir_resource, hrt]
    | some rt =>
      cases hid : r.id with
      | none => simp [validate_fhir_resource, hrt, hid]
      | some i =>
        cases hm : r.meta with
        | none => simp [validate_fhir_resource, hrt, hid, hm]
        | some m =>
          rcases hr with h | h | h | ⟨h1, h2⟩
          · rw [hrt] at h
            simp at h
          · rw [hid] at h
            simp at h
          · rw [hm] at h
            simp at h
          · rw [hrt] at h1 h2
            have g1 : rt ≠ "Media" := fun g => h1 (by rw [g])
            have g2 : rt ≠ "DocumentReference" := fun g => h2 (by rw [g])
            simp [validate_fhir_resource, hrt, hid, hm, g1, g2]

/-- Witness for C7 at the concrete inputs of the specification scenario. -/
theorem bundle_assembly_shape_witness :
    (convert_audio_metadata_to_fhir "id-media" "id-doc" "id-bundle" "2024-01-01T00:00:00Z"
      "x.wav" "https://signed-url" 1000 "audio/wav" (some "PAT-123456") (some "Dr. Smith")
      none none).entry.length = 2 :=
  (bundle_assembly_shape "id-media" "id-doc" "id-bundle" "2024-01-01T00:00:00Z" "x.wav"
    "https://signed-url" 1000 "audio/wav" "PAT-123456" (some "Dr. Smith") none none
    (convert_audio_metadata_to_fhir "id-media" "id-doc" "id-bundle" "2024-01-01T00:00:00Z"
      "x.wav" "https://signed-url" 1000 "audio/wav" (some "PAT-123456") (some "Dr. Smith")
      none none) rfl (by decide) (by decide) (by decide)).1

/-- C8: on the read path the patient field is treated as ciphertext exactly when
its length exceeds 50 characters (the decrypt collaborator is invoked iff the
threshold is exceeded); a failed decryption surfaces the sentinel "Decryption
Failed" instead of throwing, for the patient field and for a practitioner
display name alike; and the bulk listing returns one record per row, each row
processed independently, so a failing record never aborts the listing. -/
theorem read_path_degrades (decrypt : String → Except Unit String) (rows : List BQRow)
    (row : BQRow) (p : String) :
    (get_medical_records decrypt rows).length = rows.length ∧
    ((processRow decrypt row).2 =
      if 50 < (row.patient_id.getD "").length then row.patient_id else none) ∧
    (row.patient_id = some p → 50 < p.length → decrypt p = .error () →
      (processRow decrypt row).1.patient_id = "Decryption Failed") ∧
    (row.patient_id = some p → 50 < p.length → ∀ d, decrypt p = .ok d →
      (processRow decrypt row).1.patient_id = d) ∧
    (∀ pre post, get_medical_records decrypt (pre ++ row :: post) =
      get_medical_records decrypt pre ++
        (processRow decrypt row).1 :: get_medical_records decrypt post) ∧
    (∀ names full_name, row.fhir_resource = some (.ok [LiteResource.practitioner names]) →
      full_name_of names = some full_name → 50 < full_name.length →
      decrypt full_name = .error () →
      (processRow decrypt row).1.doctor = "Decryption Failed") := by
  refine ⟨by simp [get_medical_records], ?_, ?_, ?_, by simp [get_medical_records], ?_⟩
  · cases hp : row.patient_id with
    | none => simp [processRow, hp]
    | some q =>
      by_cases hq : 50 < q.length
      · simp [processRow, hp, hq]
      · simp [processRow, hp, hq]
  · intro hrow h50 herr
    simp [processRow, hrow, h50, herr]
  · intro hrow h50 d hok
    simp [processRow, hrow, h50, hok]
  · intro names full_name hres hfn h50 herr
    simp [processRow, hres, entryStep, hfn, h50, herr]

/-- Witness for C8: a 64-character ciphertext with a failing decrypt
collaborator degrades to the sentinel. -/
theorem read_path_degrades_witness :
    (processRow (fun _ => Except.error ())
      ⟨some "f.wav", some sampleCipher, some "r1", none, none⟩).1.patient_id =
      "Decryption Failed" :=
  (read_path_degrades (fun _ => Except.error ()) []
    ⟨some "f.wav", some sampleCipher, some "r1", none, none⟩ sampleCipher).2.2.1
    rfl (by decide) rfl

/-- C3: whenever the register-upload-fhir pipeline fails after admission (scan,
encryption, signed-url generation or persistence raises), the audit trail ends
with an event recorded before the failure response is returned, carrying
success = false and the raised error message; no error path suppresses it. -/
theorem failure_path_audited (scan : Except String (List Finding))
    (encrypt : String → Except String String) (signed_url : Except String String)
    (bq : StoreCall → Except String Unit) (media_id doc_id bundle_id now : String)
    (data : Payload) (e : String)
    (h : (register_upload_fhir scan encrypt signed_url bq media_id doc_id bundle_id now
        data).response = .serverError e) :
    (register_upload_fhir scan encrypt signed_url bq media_id doc_id bundle_id now
        data).audits.getLast? = some (errorAudit data e) ∧
    (errorAudit data e).success = false ∧
    (errorAudit data e).error_message = some e := by
  refine ⟨?_, rfl, rfl⟩
  cases hfn : data.file_name with
  | none => simp [register_upload_fhir, hfn] at h
  | some fn =>
  cases hfs : data.file_size with
  | none => simp [register_upload_fhir, hfn, hfs] at h
  | some fs =>
  cases hft : data.file_type with
  | none => simp [register_upload_fhir, hfn, hfs, hft] at h
  | some ft =>
  cases hscan : scan with
  | error es =>
    simp [register_upload_fhir, hfn, hfs, hft, hscan, failServer] at h ⊢
    subst h
    rfl
  | ok findings =>
  cases hep : encryptField encrypt data.patient_id with
  | error e1 =>
    simp [register_upload_fhir, hfn, hfs, hft, hscan, hep, failServer] at h ⊢
    subst h
    rfl
  | ok encp =>
  cases heo : encryptField encrypt data.operator_name with
  | error e2 =>
    simp [register_upload_fhir, hfn, hfs, hft, hscan, hep, heo, failServer] at h ⊢
    subst h
    rfl
  | ok enco =>
  cases hurl : signed_url with
  | error e3 =>
    simp [register_upload_fhir, hfn, hfs, hft, hscan, hep, heo, hurl, failServer] at h ⊢
    subst h
    rfl
  | ok read_url =>
  cases hrun : (runCalls bq (store_audio_file_with_fhir media_id doc_id bundle_id now fn
      read_url fs ft encp enco data.duration_seconds data.reason).1).2 with
  | some e5 =>
    simp [register_upload_fhir, hfn, hfs, hft, hscan, hep, heo, hurl, hrun, failServer] at h ⊢
    subst h
    rfl
  | none =>
    simp [register_upload_fhir, hfn, hfs, hft, hscan, hep, heo, hurl, hrun] at h

/-- Witness for C3: with a persistence collaborator that raises, the last audit
event of the concrete execution is the failure event. -/
theorem failure_path_audited_witness :
    (register_upload_fhir (Except.ok []) (fun s => Except.ok s) (Except.ok "url")
      (fun _ => Except.error "boom") "m" "d" "b" "t"
      ⟨some "x.wav", some 1000, some "audio/wav", some "PAT-123456", some "Dr. Smith",
        none, none⟩).audits.getLast? =
    some (errorAudit
      ⟨some "x.wav", some 1000, some "audio/wav", some "PAT-123456", some "Dr. Smith",
        none, none⟩ "boom") :=
  (failure_path_audited (Except.ok []) (fun s => Except.ok s) (Except.ok "url")
    (fun _ => Except.error "boom") "m" "d" "b" "t"
    ⟨some "x.wav", some 1000, some "audio/wav", some "PAT-123456", some "Dr. Smith",
      none, none⟩ "boom" (by decide)).1

theorem patientRef_length (c : String) : ("Patient/" ++ c).length = 8 + c.length := by
  rw [string_length_append]
  rfl

theorem convert_entry_subject (m d b now fn fp : String) (fs : Nat) (ft : String)
    (c : String) (enco : Option String) (dur : Option ℚ) (rsn : Option String)
    (hcne : c ≠ "") :
    ∀ en ∈ (convert_audio_metadata_to_fhir m d b now fn fp fs ft (some c) enco dur rsn).entry,
      en.resource.subject = some ⟨"Patient/" ++ c, "Patient"⟩ := by
  have hp := patientRef_ne_empty c
  intro en hen
  simp [convert_audio_metadata_to_fhir] at hen
  rcases hen with rfl | rfl
  · simp [create_media_resource, pyTruthyStr, hcne, hp]
  · simp [create_document_reference, pyTruthyStr, hcne, hp]

theorem media_patientSlots (m now fn url : String) (fs : Nat) (ft : String)
    (dur : Option ℚ) (sub : String) (enco : Option String) (dev rsn : Option String)
    (hsub : sub ≠ "") :
    (create_media_resource m now fn url fs ft dur (some sub) enco dev rsn).patientSlots =
      sub :: (if pyTruthyStr enco then enco else none).toList := by
  simp [Resource.patientSlots, create_media_resource, pyTruthyStr, hsub]

theorem doc_patientSlots (d now : String) (media : Resource) (fn url : String)
    (sub : String) (hsub : sub ≠ "") :
    (create_document_reference d now media fn url (some sub)).patientSlots = [sub] := by
  simp [Resource.patientSlots, create_document_reference, pyTruthyStr, hsub]

theorem convert_eq (m d b now fn url : String) (fs : Nat) (ft : String) (c : String)
    (enco : Option String) (dur : Option ℚ) (rsn : Option String) (hcne : c ≠ "") :
    convert_audio_metadata_to_fhir m d b now fn url fs ft (some c) enco dur rsn =
      ⟨"Bundle", b, now, "collection",
        [⟨create_media_resource m now fn url fs ft dur (some ("Patient/" ++ c)) enco
            (some "Mobile Audio Recorder") rsn, base_url ++ "/Media/" ++ m⟩,
         ⟨create_document_reference d now
            (create_media_resource m now fn url fs ft dur (some ("Patient/" ++ c)) enco
              (some "Mobile Audio Recorder") rsn) fn url (some ("Patient/" ++ c)),
          base_url ++ "/DocumentReference/" ++ d⟩]⟩ := by
  simp [convert_audio_metadata_to_fhir, pyTruthyStr, hcne]

theorem store_calls_of_slots (fn url : String) (fs : Nat) (ft : String) (c : String)
    (enco : Option String) (m d b now : String) (dur : Option ℚ) (rsn : Option String)
    (hc : 50 < c.length) (ho : ∀ x ∈ enco, x ≠ "" → 50 < x.length) :
    ∀ call ∈ store_calls_of
        (convert_audio_metadata_to_fhir m d b now fn url fs ft (some c) enco dur rsn)
        fn url fs (some c),
      ∀ v ∈ call.patientSlots, 50 < v.length := by
  have hcne : c ≠ "" := ne_empty_of_fifty_lt c hc
  have hp := patientRef_ne_empty c
  have hrefl : 50 < ("Patient/" ++ c).length := by
    rw [patientRef_length]
    omega
  obtain ⟨opd, hopd⟩ : ∃ opd, (if pyTruthyStr enco then enco else none) = opd := ⟨_, rfl⟩
  have hop : ∀ x ∈ opd.toList, 50 < x.length := by
    rw [← hopd]
    cases enco with
    | none => simp
    | some o =>
      by_cases hoe : o = ""
      · subst hoe
        simp [pyTruthyStr]
      · simp [pyTruthyStr, hoe]
        exact ho o rfl hoe
  have hms := media_patientSlots m now fn url fs ft dur ("Patient/" ++ c) enco
    (some "Mobile Audio Recorder") rsn hp
  rw [hopd] at hms
  have hds := doc_patientSlots d now
    (create_media_resource m now fn url fs ft dur (some ("Patient/" ++ c)) enco
      (some "Mobile Audio Recorder") rsn) fn url ("Patient/" ++ c) hp
  intro call hcall v hv
  rw [convert_eq m d b now fn url fs ft c enco dur rsn hcne] at hcall
  simp only [store_calls_of, List.map_cons, List.map_nil, List.mem_cons,
    List.not_mem_nil, or_false] at hcall
  cases opd with
  | none =>
    simp only [Option.toList_none] at hop hms
    rcases hcall with rfl | rfl | rfl | rfl
    · simp [StoreCall.patientSlots] at hv
    · simp [StoreCall.patientSlots, FhirDoc.patientSlots, hms, hds] at hv
      have hv2 : v = c ∨ v = "Patient/" ++ c := by tauto
      rcases hv2 with rfl | rfl
      · exact hc
      · exact hrefl
    · simp [StoreCall.patientSlots, FhirDoc.patientSlots, hms] at hv
      have hv2 : v = c ∨ v = "Patient/" ++ c := by tauto
      rcases hv2 with rfl | rfl
      · exact hc
      · exact hrefl
    · simp [StoreCall.patientSlots, FhirDoc.patientSlots, hds] at hv
      have hv2 : v = c ∨ v = "Patient/" ++ c := by tauto
      rcases hv2 with rfl | rfl
      · exact hc
      · exact hrefl
  | some o =>
    simp only [Option.toList_some] at hop hms
    have hol : 50 < o.length := hop o (List.mem_singleton.mpr rfl)
    rcases hcall with rfl | rfl | rfl | rfl
    · simp [StoreCall.patientSlots] at hv
    · simp [StoreCall.patientSlots, FhirDoc.patientSlots, hms, hds] at hv
      have hv2 : v = c ∨ v = "Patient/" ++ c ∨ v = o := by tauto
      rcases hv2 with rfl | rfl | rfl
      · exact hc
      · exact hrefl
      · exact hol
    · simp [StoreCall.patientSlots, FhirDoc.patientSlots, hms] at hv
      have hv2 : v = c ∨ v = "Patient/" ++ c ∨ v = o := by tauto
      rcases hv2 with rfl | rfl | rfl
      · exact hc
      · exact hrefl
      · exact hol
    · simp [StoreCall.patientSlots, FhirDoc.patientSlots, hds] at hv
      have hv2 : v = c ∨ v = "Patient/" ++ c := by tauto
      rcases hv2 with rfl | rfl
      · exact hc
      · exact hrefl

/-- C1: for every register-upload-fhir request containing a (non-empty) patient
id, every patient/operator value handed to the persistence collaborator is the
ciphertext produced by the Key Manager (longer than 50 characters and different
from the plaintext), the plaintext identifier reaches no store call, and on
success the persisted bundle row carries exactly the ciphertext as its patient
field with both resources referencing Patient/ciphertext. The hypotheses state
the external KMS contract: encryption succeeded on the plaintext and every
ciphertext it produces exceeds the 50-character heuristic, while the plaintext
identifier itself does not. -/
theorem encrypted_before_persist (scan : Except String (List Finding))
    (encrypt : String → Except String String) (signed_url : Except String String)
    (bq : StoreCall → Except String Unit) (media_id doc_id bundle_id now : String)
    (data : Payload) (pid c : String)
    (hpid : data.patient_id = some pid) (hne : pid ≠ "") (hplain : pid.length ≤ 50)
    (henc : encrypt pid = .ok c)
    (hlen : ∀ s t, encrypt s = .ok t → 50 < t.length) :
    let result := register_upload_fhir scan encrypt signed_url bq media_id doc_id
      bundle_id now data
    (c ≠ pid ∧ 50 < c.length) ∧
    (∀ call ∈ result.stores, ∀ v ∈ call.patientSlots, 50 < v.length ∧ v ≠ pid) ∧
    (∀ bid n phi rl, result.response = .ok bid n phi rl →
      ∃ bundle : Bundle,
        StoreCall.fhir (.bundle bundle) (some c) data.file_name ∈ result.stores ∧
        bundle.id = bid ∧
        ∀ en ∈ bundle.entry, en.resource.subject = some ⟨"Patient/" ++ c, "Patient"⟩) := by
  intro result
  have hclen : 50 < c.length := hlen pid c henc
  have hcnep : c ≠ pid := ne_of_len_gt hclen hplain
  have hepc : encryptField encrypt data.patient_id = Except.ok (some c) := by
    rw [hpid]
    simp [encryptField, hne, henc, Except.map]
  refine ⟨⟨hcnep, hclen⟩, ?_, ?_⟩
  · intro call hcall v hv
    cases hfn : data.file_name with
    | none => simp [result, register_upload_fhir, hfn] at hcall
    | some fn =>
    cases hfs : data.file_size with
    | none => simp [result, register_upload_fhir, hfn, hfs] at hcall
    | some fs =>
    cases hft : data.file_type with
    | none => simp [result, register_upload_fhir, hfn, hfs, hft] at hcall
    | some ft =>
    cases hscan : scan with
    | error es =>
      simp [result, register_upload_fhir, hfn, hfs, hft, hscan, failServer] at hcall
    | ok findings =>
    cases heo : encryptField encrypt data.operator_name with
    | error e2 =>
      simp [result, register_upload_fhir, hfn, hfs, hft, hscan, hepc, heo,
        failServer] at hcall
    | ok enco =>
    cases hurl : signed_url with
    | error e3 =>
      simp [result, register_upload_fhir, hfn, hfs, hft, hscan, hepc, heo, hurl,
        failServer] at hcall
    | ok read_url =>
      have hoo : ∀ x ∈ enco, x ≠ "" → 50 < x.length :=
        encryptField_ok_len encrypt hlen data.operator_name enco heo
      have hsub : call ∈ store_calls_of
          (convert_audio_metadata_to_fhir media_id doc_id bundle_id now fn read_url fs ft
            (some c) enco data.duration_seconds data.reason)
          fn read_url fs (some c) := by
        cases hrun : (runCalls bq (store_calls_of
            (convert_audio_metadata_to_fhir media_id doc_id bundle_id now fn read_url fs ft
              (some c) enco data.duration_seconds data.reason)
            fn read_url fs (some c))).2 with
        | some e5 =>
          simp [result, register_upload_fhir, hfn, hfs, hft, hscan, hepc, heo, hurl, hrun,
            failServer, store_audio_file_with_fhir] at hcall
          exact runCalls_mem bq _ call hcall
        | none =>
          simp [result, register_upload_fhir, hfn, hfs, hft, hscan, hepc, heo, hurl, hrun,
            store_audio_file_with_fhir] at hcall
          exact runCalls_mem bq _ call hcall
      have hb := store_calls_of_slots fn read_url fs ft c enco media_id doc_id bundle_id
        now data.duration_seconds data.reason hclen hoo call hsub v hv
      exact ⟨hb, ne_of_len_gt hb hplain⟩
  · intro bid n phi rl hresp
    cases hfn : data.file_name with
    | none => simp [result, register_upload_fhir, hfn] at hresp
    | some fn =>
    cases hfs : data.file_size with
    | none => simp [result, register_upload_fhir, hfn, hfs] at hresp
    | some fs =>
    cases hft : data.file_type with
    | none => simp [result, register_upload_fhir, hfn, hfs, hft] at hresp
    | some ft =>
    cases hscan : scan with
    | error es =>
      simp [result, register_upload_fhir, hfn, hfs, hft, hscan, failServer] at hresp
    | ok findings =>
    cases heo : encryptField encrypt data.operator_name with
    | error e2 =>
      simp [result, register_upload_fhir, hfn, hfs, hft, hscan, hepc, heo,
        failServer] at hresp
    | ok enco =>
    cases hurl : signed_url with
    | error e3 =>
      simp [result, register_upload_fhir, hfn, hfs, hft, hscan, hepc, heo, hurl,
        failServer] at hresp
    | ok read_url =>
    cases hrun : (runCalls bq (store_calls_of
        (convert_audio_metadata_to_fhir media_id doc_id bundle_id now fn read_url fs ft
          (some c) enco data.duration_seconds data.reason)
        fn read_url fs (some c))).2 with
    | some e5 =>
      simp [result, register_upload_fhir, hfn, hfs, hft, hscan, hepc, heo, hurl, hrun,
        failServer, store_audio_file_with_fhir] at hresp
    | none =>
      have hcne : c ≠ "" := ne_empty_of_fifty_lt c hclen
      refine ⟨convert_audio_metadata_to_fhir media_id doc_id bundle_id now fn read_url fs
        ft (some c) enco data.duration_seconds data.reason, ?_, ?_, ?_⟩
      · have hfull := runCalls_complete bq (store_calls_of
          (convert_audio_metadata_to_fhir media_id doc_id bundle_id now fn read_url fs ft
            (some c) enco data.duration_seconds data.reason)
          fn read_url fs (some c)) hrun
        have hstores : result.stores = store_calls_of
            (convert_audio_metadata_to_fhir media_id doc_id bundle_id now fn read_url fs ft
              (some c) enco data.duration_seconds data.reason)
            fn read_url fs (some c) := by
          simp [result, register_upload_fhir, hfn, hfs, hft, hscan, hepc, heo, hurl, hrun,
            store_audio_file_with_fhir, hfull]
        rw [hstores]
        simp [store_calls_of, hfn]
      · simp [result, register_upload_fhir, hfn, hfs, hft, hscan, hepc, heo, hurl, hrun,
          store_audio_file_with_fhir] at hresp
        exact hresp.1
      · exact convert_entry_subject media_id doc_id bundle_id now fn read_url fs ft c enco
          data.duration_seconds data.reason hcne

/-- Witness for C1: a concrete request with the inputs of the specification
scenario and a KMS collaborator returning a 64-character envelope. -/
theorem encrypted_before_persist_witness :
    sampleCipher ≠ "PAT-123456" ∧ 50 < sampleCipher.length :=
  (encrypted_before_persist (Except.ok []) (fun _ => Except.ok sampleCipher)
    (Except.ok "url") (fun _ => Except.ok ()) "m" "d" "b" "t"
    ⟨some "x.wav", some 1000, some "audio/wav", some "PAT-123456", some "Dr. Smith",
      none, none⟩ "PAT-123456" sampleCipher rfl (by decide) (by decide) rfl
    (fun s t h => by cases h; decide)).1
